import Mathlib

/-!
Shallow embedding of the slider component in `src/plugins/flags.ts`
(the `DynamicSlider` React component and its helpers).

Pixel quantities (widths, gaps, offsets, indices) are JS numbers in the
source; they are modelled as rationals `ℚ` so that all navigation and
windowing arithmetic is exact and decidable.  The spring easing curve
uses `Math.exp`, so the per-frame interpolation formula lives in `ℝ`
via `Real.exp`.  A JS `NaN` produced by `parseFloat` on a malformed
string is modelled as `none : Option ℚ`; NaN-propagating arithmetic
maps `none` to `none`.

The `requestAnimationFrame` / `cancelAnimationFrame` mechanics are
modelled by an explicit scheduler state: a FIFO list of scheduled frame
callbacks (each carrying the closure data of the `animate` callback:
its captured `startOffset` and `targetOffset`), a counter issuing fresh
frame ids, and the component's `animationRef`.
-/

/-- Static slider configuration, restricted to the fields the windowing,
navigation and drag logic read (`sliderConfig` after merging defaults). -/
structure SliderCfg where
  containerWidth : ℚ
  gap : ℚ
  visibleItems : ℚ
  peek : Bool
  peekWidth : ℚ
  itemsLength : ℕ
  dragThreshold : ℚ
  deriving Repr, DecidableEq

/-- Virtualization sub-configuration: `virtualization.enabled` and the
optional `virtualization.overscan` (the source applies `?? 2`). -/
structure VirtualizationCfg where
  enabled : Bool
  overscan : Option ℚ
  deriving Repr, DecidableEq

/-- Embedding of `getItemWidth`:
`if (!containerWidth) return 0;`
`const peekSpace = peek ? peekWidth * 2 : 0;`
`const availableWidth = containerWidth - peekSpace;`
`return (availableWidth - gap * (visibleItems - 1)) / visibleItems;` -/
def getItemWidth (cfg : SliderCfg) : ℚ :=
  if cfg.containerWidth = 0 then 0
  else
    let peekSpace := if cfg.peek then cfg.peekWidth * 2 else 0
    let availableWidth := cfg.containerWidth - peekSpace
    (availableWidth - cfg.gap * (cfg.visibleItems - 1)) / cfg.visibleItems

/-- Embedding of `calculateVisibleRange`.  When virtualization is
disabled the full range `[0, items.length)` is returned; otherwise
`startIndex = Math.max(0, Math.floor(-sliderOffset / (itemWidth + gap)) - overscan)` and
`endIndex = Math.min(items.length, Math.ceil((-sliderOffset + containerWidth) / (itemWidth + gap)) + overscan)`.
(The source also computes an unused local `visibleItemCount`, omitted here.) -/
def calculateVisibleRange (cfg : SliderCfg) (virt : VirtualizationCfg)
    (sliderOffset : ℚ) : ℚ × ℚ :=
  if !virt.enabled then (0, (cfg.itemsLength : ℚ))
  else
    let itemWidth := getItemWidth cfg
    let overscan := virt.overscan.getD 2
    let startIndex :=
      max 0 ((⌊-sliderOffset / (itemWidth + cfg.gap)⌋ : ℚ) - overscan)
    let endIndex :=
      min (cfg.itemsLength : ℚ)
        ((⌈(-sliderOffset + cfg.containerWidth) / (itemWidth + cfg.gap)⌉ : ℚ) + overscan)
    (startIndex, endIndex)

/-- The index-to-offset formula shared by `handleNext`, `handlePrevious`,
`handleDragEnd`, `scrollToItem` and `scrollToIndex`:
`-(index * (itemWidth + gap)) + (peek ? peekWidth : 0)`. -/
def indexTargetOffset (cfg : SliderCfg) (index : ℚ) : ℚ :=
  -(index * (getItemWidth cfg + cfg.gap)) + (if cfg.peek then cfg.peekWidth else 0)

/-- Index and target-offset computation of `handleNext`:
`const maxIndex = items.length - visibleItems;`
`const nextIndex = Math.min(maxIndex, currentIndex + 1);`
`const targetOffset = -(nextIndex * (itemWidth + gap)) + (peek ? peekWidth : 0);` -/
def handleNext (cfg : SliderCfg) (currentIndex : ℚ) : ℚ × ℚ :=
  let maxIndex := (cfg.itemsLength : ℚ) - cfg.visibleItems
  let nextIndex := min maxIndex (currentIndex + 1)
  (nextIndex, indexTargetOffset cfg nextIndex)

/-- Index and target-offset computation of `handlePrevious`:
`const prevIndex = Math.max(0, currentIndex - 1);`
`const targetOffset = -(prevIndex * (itemWidth + gap)) + (peek ? peekWidth : 0);` -/
def handlePrevious (cfg : SliderCfg) (currentIndex : ℚ) : ℚ × ℚ :=
  let prevIndex := max 0 (currentIndex - 1)
  (prevIndex, indexTargetOffset cfg prevIndex)

/-- Embedding of `handleDragEnd` (index/offset outcome).  The early
return when not dragging or dragging disabled is modelled as `none`;
otherwise the result is the new `(currentIndex, animation target)` pair:
`const totalDrag = dragCurrentRef.current - dragStartRef.current;`
`if (Math.abs(totalDrag) > itemWidth * dragThreshold) totalDrag > 0 ? handlePrevious() : handleNext();`
`else animateToOffset(-(currentIndex * (itemWidth + gap)) + (peek ? peekWidth : 0));` -/
def handleDragEnd (cfg : SliderCfg) (isDragging enableDrag : Bool)
    (currentIndex dragStart dragCurrent : ℚ) : Option (ℚ × ℚ) :=
  if !isDragging || !enableDrag then none
  else
    let totalDrag := dragCurrent - dragStart
    let itemWidth := getItemWidth cfg
    if |totalDrag| > itemWidth * cfg.dragThreshold then
      if totalDrag > 0 then some (handlePrevious cfg currentIndex)
      else some (handleNext cfg currentIndex)
    else some (currentIndex, indexTargetOffset cfg currentIndex)

/-- Digits taken from the front of a character list, with the rest. -/
def spanDigits (cs : List Char) : List Char × List Char :=
  (cs.takeWhile Char.isDigit, cs.dropWhile Char.isDigit)

/-- Numeric value of a digit string (most significant first). -/
def digitsToNat (cs : List Char) : ℕ :=
  cs.foldl (fun acc c => acc * 10 + (c.toNat - 48)) 0

/-- Exponent part of a JS float literal (after the letter e): an
optional sign followed by digits; an invalid exponent part is not
consumed, leaving exponent 0 (parseFloat keeps the mantissa prefix). -/
def parseExpPart (cs : List Char) : ℤ :=
  let signed : ℤ × List Char :=
    match cs with
    | '-' :: rest => (-1, rest)
    | '+' :: rest => (1, rest)
    | _ => (1, cs)
  let eDigits := (spanDigits signed.2).1
  if eDigits.isEmpty then 0 else signed.1 * (digitsToNat eDigits : ℤ)

/-- Model of JS `parseFloat`: skip leading whitespace, then parse the
longest prefix of the form sign? digits ('.' digits?)? exponent?
(or '.' digits exponent?); if no digits occur before the rest of the
string, the result is NaN, modelled as `none`.  (The `Infinity`
literal is not modelled; no call site can produce it.) -/
def parseFloatJs (s : String) : Option ℚ :=
  let cs := s.toList.dropWhile fun c => c = ' ' ∨ c = '\t' ∨ c = '\n' ∨ c = '\r'
  let signed : ℚ × List Char :=
    match cs with
    | '-' :: rest => (-1, rest)
    | '+' :: rest => (1, rest)
    | _ => (1, cs)
  let intPart := spanDigits signed.2
  let fracPart : List Char × List Char :=
    match intPart.2 with
    | '.' :: rest => spanDigits rest
    | _ => ([], intPart.2)
  if intPart.1.isEmpty ∧ fracPart.1.isEmpty then none
  else
    let mantissa : ℚ :=
      (digitsToNat intPart.1 : ℚ) + (digitsToNat fracPart.1 : ℚ) / (10 ^ fracPart.1.length)
    let expVal : ℤ :=
      match fracPart.2 with
      | 'e' :: rest => parseExpPart rest
      | 'E' :: rest => parseExpPart rest
      | _ => 0
    some (signed.1 * mantissa * (10 : ℚ) ^ expVal)

/-- The percent sign, as tested by `peekAmount.endsWith("%")`. -/
def percentSuffix : String := "%"

/-- Model of JS `String.prototype.endsWith`: a suffix test on the
character sequence. -/
def jsEndsWith (s suffix : String) : Bool := suffix.toList.isSuffixOf s.toList

/-- The `peekAmount` configuration value: a number or a string. -/
inductive PeekAmount where
  | num (value : ℚ)
  | str (value : String)
  deriving Repr, DecidableEq

/-- Embedding of `calculatePeekWidth` (result `none` models NaN):
`if (!peek) return 0;`
`if (typeof peekAmount === "number") return peekAmount;`
`if (typeof peekAmount === "string" && peekAmount.endsWith("%")) {`
`  const itemWidth = (width - (visibleItems - 1) * gap) / visibleItems;`
`  return (itemWidth * parseFloat(peekAmount)) / 100; }`
`return 0;` -/
def calculatePeekWidth (peek : Bool) (peekAmount : PeekAmount)
    (visibleItems gap width : ℚ) : Option ℚ :=
  if !peek then some 0
  else
    match peekAmount with
    | .num q => some q
    | .str s =>
      if jsEndsWith s percentSuffix then
        let itemWidth := (width - (visibleItems - 1) * gap) / visibleItems
        match parseFloatJs s with
        | some p => some (itemWidth * p / 100)
        | none => none
      else some 0

/-- Spring configuration (`springConfig`). -/
structure SpringCfg where
  stiffness : ℝ
  damping : ℝ
  mass : ℝ

/-- Embedding of the easing value computed by each animation frame:
`springProgress = 1 - Math.exp((-stiffness * progress) / mass)` and
`dampedProgress = springProgress * (1 - Math.exp(-damping * progress))`. -/
noncomputable def springDampedProgress (stiffness damping mass progress : ℝ) : ℝ :=
  (1 - Real.exp (-stiffness * progress / mass)) * (1 - Real.exp (-damping * progress))

/-- Embedding of `newOffset = startOffset + distance * dampedProgress`
where `distance = targetOffset - startOffset`. -/
noncomputable def frameOffset (startOffset targetOffset stiffness damping mass progress : ℝ) : ℝ :=
  startOffset + (targetOffset - startOffset) *
    springDampedProgress stiffness damping mass progress

/-- A scheduled `requestAnimationFrame` callback: the frame id returned
by the host, plus the data captured by the `animate` closure
(`startOffset` and `targetOffset` of `animateToOffset`). -/
structure FrameJob where
  id : ℕ
  startOffset : ℝ
  targetOffset : ℝ

/-- Slider component state together with the animation-frame scheduler:
`currentIndex` and `sliderOffset` state, the FIFO list of scheduled
frame callbacks, `animationRef.current`, a fresh-id counter for the
host's `requestAnimationFrame`, and the list of indices passed to the
`onSlideChange` callback so far. -/
structure SliderMState where
  currentIndex : ℚ
  sliderOffset : ℝ
  scheduled : List FrameJob
  animationRef : ℕ
  nextFrameId : ℕ
  slideChangeEvents : List ℚ

/-- Host `cancelAnimationFrame(id)`: de-schedules the callback with the
given id (a no-op when no such callback is scheduled). -/
def cancelFrame (s : SliderMState) (id : ℕ) : SliderMState :=
  { s with scheduled := s.scheduled.filter fun j => j.id ≠ id }

/-- Host `requestAnimationFrame(animate)` together with the assignment
`animationRef.current = ...`: schedules a callback with a fresh id and
records that id in the ref. -/
def requestFrame (s : SliderMState) (startOffset targetOffset : ℝ) : SliderMState :=
  { s with
    scheduled := s.scheduled ++ [⟨s.nextFrameId, startOffset, targetOffset⟩]
    animationRef := s.nextFrameId
    nextFrameId := s.nextFrameId + 1 }

/-- Embedding of `animateToOffset(targetOffset, immediate)`.  The
immediate branch is `setSliderOffset(targetOffset); return;`.  The
non-immediate branch captures `startOffset = sliderOffset`, then runs
`cancelAnimationFrame(animationRef.current)` followed by
`animationRef.current = requestAnimationFrame(animate)`. -/
def animateToOffset (s : SliderMState) (targetOffset : ℝ) (immediate : Bool) : SliderMState :=
  if immediate then { s with sliderOffset := targetOffset }
  else requestFrame (cancelFrame s s.animationRef) s.sliderOffset targetOffset

/-- The host firing the oldest scheduled frame callback, `elapsed`
time units after that animation's start:
`progress = Math.min(elapsed / 300, 1)`, the offset is updated with the
damped-spring interpolation, and while `progress < 1` the callback
re-schedules itself (`animationRef.current = requestAnimationFrame(animate)`). -/
noncomputable def fireFrame (spring : SpringCfg) (s : SliderMState) (elapsed : ℚ) : SliderMState :=
  match s.scheduled with
  | [] => s
  | job :: rest =>
    let progress : ℚ := min (elapsed / 300) 1
    let newOffset := frameOffset job.startOffset job.targetOffset
      spring.stiffness spring.damping spring.mass (progress : ℝ)
    let s' := { s with scheduled := rest, sliderOffset := newOffset }
    if progress < 1 then requestFrame s' job.startOffset job.targetOffset
    else s'

/-- Embedding of `handleNext`: compute the clamped next index and its
target offset, `setCurrentIndex(nextIndex)`, `animateToOffset(targetOffset)`
(non-immediate), then `onSlideChange?.(nextIndex)`. -/
def handleNextM (cfg : SliderCfg) (s : SliderMState) : SliderMState :=
  let r := handleNext cfg s.currentIndex
  let s1 := { s with currentIndex := r.1 }
  let s2 := animateToOffset s1 (r.2 : ℝ) false
  { s2 with slideChangeEvents := s2.slideChangeEvents ++ [r.1] }

/-- Embedding of `handlePrevious`: compute the clamped previous index
and its target offset, `setCurrentIndex(prevIndex)`,
`animateToOffset(targetOffset)`, then `onSlideChange?.(prevIndex)`. -/
def handlePreviousM (cfg : SliderCfg) (s : SliderMState) : SliderMState :=
  let r := handlePrevious cfg s.currentIndex
  let s1 := { s with currentIndex := r.1 }
  let s2 := animateToOffset s1 (r.2 : ℝ) false
  { s2 with slideChangeEvents := s2.slideChangeEvents ++ [r.1] }

/-- Embedding of the imperative `scrollToIndex(index)`: compute the
target offset with no bounds validation, `setCurrentIndex(index)`,
`animateToOffset(targetOffset)`, then `onSlideChange?.(index)`. -/
def scrollToIndexM (cfg : SliderCfg) (s : SliderMState) (index : ℚ) : SliderMState :=
  let targetOffset := indexTargetOffset cfg index
  let s1 := { s with currentIndex := index }
  let s2 := animateToOffset s1 (targetOffset : ℝ) false
  { s2 with slideChangeEvents := s2.slideChangeEvents ++ [index] }

/-- Embedding of the scheduler effect of `handleDragStart` when
dragging is enabled: `cancelAnimationFrame(animationRef.current)`. -/
def handleDragStartM (enableDrag : Bool) (s : SliderMState) : SliderMState :=
  if !enableDrag then s else cancelFrame s s.animationRef

/-- Scheduler invariant maintained by the component: at most one frame
callback is scheduled at a time, and any scheduled callback carries the
id stored in `animationRef.current` (so cancelling the ref cancels it). -/
def SchedInv (s : SliderMState) : Prop :=
  s.scheduled.length ≤ 1 ∧ ∀ j ∈ s.scheduled, j.id = s.animationRef

/-! ### Concrete fixtures

`cfgMain` realizes the spec's worked example: container width 424 with
gap 8 and 4 visible items gives item width `(424 - 3*8)/4 = 100`. -/

/-- Ten items, four visible, gap 8, peek disabled, item width 100. -/
def cfgMain : SliderCfg := ⟨424, 8, 4, false, 0, 10, 1/5⟩

/-- The default spring configuration (stiffness 150, damping 25, mass 1). -/
def springMain : SpringCfg := ⟨150, 25, 1⟩

/-- Initial machine state: index 0, offset 0, nothing scheduled,
`animationRef.current` 0, first fresh frame id 1, no callbacks fired. -/
def mState0 : SliderMState := ⟨0, 0, [], 0, 1, []⟩

/-- Five items, one visible, item width 100, no gap. -/
def cfgNarrow : SliderCfg := ⟨100, 0, 1, false, 0, 5, 1/5⟩

/-- Ten items, four visible, item width 100, no gap. -/
def cfgWide : SliderCfg := ⟨400, 0, 4, false, 0, 10, 1/5⟩

/-- Two items but four visible items per breakpoint. -/
def cfgFew : SliderCfg := ⟨424, 8, 4, false, 0, 2, 1/5⟩

/-- Virtualization enabled with overscan 2. -/
def virtOn : VirtualizationCfg := ⟨true, some 2⟩

/-! ### Shared helper lemmas -/

/-- Exponentials of negative arguments are below one. -/
theorem exp_lt_one_of_neg {x : ℝ} (h : x < 0) : Real.exp x < 1 := by
  calc Real.exp x < Real.exp 0 := Real.exp_lt_exp.mpr h
  _ = 1 := Real.exp_zero

/-- Exponentials of nonpositive arguments are at most one. -/
theorem exp_le_one_of_nonpos {x : ℝ} (h : x ≤ 0) : Real.exp x ≤ 1 := by
  rw [show (1:ℝ) = Real.exp 0 from Real.exp_zero.symm]
  exact Real.exp_le_exp.mpr h

/-- The damped-spring easing value is nonnegative for nonnegative
progress and positive spring parameters. -/
theorem sdp_nonneg (k d m p : ℝ) (hk : 0 < k) (hd : 0 < d) (hm : 0 < m) (hp : 0 ≤ p) :
    0 ≤ springDampedProgress k d m p := by
  have h1 : Real.exp (-k * p / m) ≤ 1 := by
    apply exp_le_one_of_nonpos
    have hkp : 0 ≤ k * p := mul_nonneg hk.le hp
    have hneg : -k * p ≤ 0 := by nlinarith
    exact div_nonpos_of_nonpos_of_nonneg hneg hm.le
  have h2 : Real.exp (-d * p) ≤ 1 := by
    apply exp_le_one_of_nonpos
    nlinarith
  unfold springDampedProgress
  nlinarith

/-- The damped-spring easing value never exceeds one. -/
theorem sdp_le_one (k d m p : ℝ) (hk : 0 < k) (hd : 0 < d) (hm : 0 < m) (hp : 0 ≤ p) :
    springDampedProgress k d m p ≤ 1 := by
  have h1 := Real.exp_pos (-k * p / m)
  have h2 := Real.exp_pos (-d * p)
  have h3 : Real.exp (-k * p / m) ≤ 1 := by
    apply exp_le_one_of_nonpos
    have hkp : 0 ≤ k * p := mul_nonneg hk.le hp
    have hneg : -k * p ≤ 0 := by nlinarith
    exact div_nonpos_of_nonpos_of_nonneg hneg hm.le
  have h5 : Real.exp (-d * p) ≤ 1 := by
    apply exp_le_one_of_nonpos
    nlinarith
  unfold springDampedProgress
  nlinarith

/-- Cancelling the id held in `animationRef` empties the schedule under
the scheduler invariant. -/
theorem cancel_of_inv (s : SliderMState) (h : SchedInv s) :
    (cancelFrame s s.animationRef).scheduled = [] := by
  simp only [cancelFrame]
  rw [List.filter_eq_nil_iff]
  intro j hj
  simp [h.2 j hj]

/-- `cancelFrame` leaves the fresh-id counter unchanged. -/
theorem cancelFrame_nextFrameId (s : SliderMState) (id : ℕ) :
    (cancelFrame s id).nextFrameId = s.nextFrameId := rfl

/-- `cancelFrame` leaves the offset unchanged. -/
theorem cancelFrame_sliderOffset (s : SliderMState) (id : ℕ) :
    (cancelFrame s id).sliderOffset = s.sliderOffset := rfl

/-- After a non-immediate `animateToOffset`, the schedule holds exactly
the newly requested frame, whose closure captured the offset at call
time and the new target. -/
theorem animate_sched (s : SliderMState) (t : ℝ) (h : SchedInv s) :
    (animateToOffset s t false).scheduled = [⟨s.nextFrameId, s.sliderOffset, t⟩] := by
  simp [animateToOffset, requestFrame, cancel_of_inv s h, cancelFrame_nextFrameId,
    cancelFrame_sliderOffset]

/-! ### C1: bounds of the virtualized visible range -/

/-- Claim C1 as stated is false: at offset 10000 (scrolled right past
the strip, e.g. mid-animation after `scrollToIndex` with an
out-of-range argument) the computed end index is negative, so
`0 ≤ start ≤ end ≤ items.length` fails. -/
theorem calculateVisibleRange_claim_cex :
    ¬ (0 ≤ (calculateVisibleRange cfgNarrow virtOn 10000).1 ∧
       (calculateVisibleRange cfgNarrow virtOn 10000).1 ≤
         (calculateVisibleRange cfgNarrow virtOn 10000).2 ∧
       (calculateVisibleRange cfgNarrow virtOn 10000).2 ≤ (cfgNarrow.itemsLength : ℚ)) := by
  have hr : calculateVisibleRange cfgNarrow virtOn 10000 = (0, -97) := by
    unfold calculateVisibleRange cfgNarrow virtOn getItemWidth
    norm_num
    rw [show ((-99:ℚ)) = ((-99:ℤ):ℚ) by norm_num, Int.ceil_intCast]
    norm_num
  rw [hr]
  norm_num [cfgNarrow]

/-- C1 (amended): with virtualization enabled, a positive stride
`itemWidth + gap`, a nonnegative container width and overscan, and an
offset within the strip's extent `[-(items.length * stride), 0]`, the
visible range satisfies `0 ≤ start ≤ end ≤ items.length`; offsets
outside that range (reachable only through out-of-range
`scrollToIndex` targets) can violate `start ≤ end`. -/
theorem calculateVisibleRange_bounds (cfg : SliderCfg) (virt : VirtualizationCfg) (offset : ℚ)
    (henabled : virt.enabled = true)
    (hw : 0 < getItemWidth cfg + cfg.gap)
    (hcw : 0 ≤ cfg.containerWidth)
    (hov : 0 ≤ virt.overscan.getD 2)
    (hlo : -((cfg.itemsLength : ℚ) * (getItemWidth cfg + cfg.gap)) ≤ offset)
    (hhi : offset ≤ 0) :
    0 ≤ (calculateVisibleRange cfg virt offset).1 ∧
    (calculateVisibleRange cfg virt offset).1 ≤ (calculateVisibleRange cfg virt offset).2 ∧
    (calculateVisibleRange cfg virt offset).2 ≤ (cfg.itemsLength : ℚ) := by
  have hx0 : 0 ≤ -offset / (getItemWidth cfg + cfg.gap) := div_nonneg (by linarith) hw.le
  have hxL : -offset / (getItemWidth cfg + cfg.gap) ≤ (cfg.itemsLength : ℚ) := by
    rw [div_le_iff₀ hw]
    linarith
  have hxy : -offset / (getItemWidth cfg + cfg.gap) ≤
      (-offset + cfg.containerWidth) / (getItemWidth cfg + cfg.gap) :=
    (div_le_div_iff_of_pos_right hw).mpr (by linarith)
  have hfl : ((⌊-offset / (getItemWidth cfg + cfg.gap)⌋ : ℚ)) ≤
      -offset / (getItemWidth cfg + cfg.gap) := Int.floor_le _
  have hcl : (-offset + cfg.containerWidth) / (getItemWidth cfg + cfg.gap) ≤
      ((⌈(-offset + cfg.containerWidth) / (getItemWidth cfg + cfg.gap)⌉ : ℚ)) := Int.le_ceil _
  have hL0 : (0 : ℚ) ≤ (cfg.itemsLength : ℚ) := Nat.cast_nonneg _
  simp only [calculateVisibleRange, henabled, Bool.not_true, Bool.false_eq_true, if_false]
  refine ⟨le_max_left _ _, ?_, min_le_left _ _⟩
  rw [max_le_iff, le_min_iff, le_min_iff]
  exact ⟨⟨hL0, by linarith⟩, by linarith, by linarith⟩

/-- Witness for C1: a concrete in-range instance of
`calculateVisibleRange_bounds`. -/
theorem calculateVisibleRange_bounds_witness :
    virtOn.enabled = true ∧ (0 < getItemWidth cfgWide + cfgWide.gap) ∧
    (0 ≤ cfgWide.containerWidth) ∧ (0 ≤ virtOn.overscan.getD 2) ∧
    (-((cfgWide.itemsLength : ℚ) * (getItemWidth cfgWide + cfgWide.gap)) ≤ -100) ∧
    ((-100 : ℚ) ≤ 0) ∧
    (0 ≤ (calculateVisibleRange cfgWide virtOn (-100)).1 ∧
     (calculateVisibleRange cfgWide virtOn (-100)).1 ≤
       (calculateVisibleRange cfgWide virtOn (-100)).2 ∧
     (calculateVisibleRange cfgWide virtOn (-100)).2 ≤ (cfgWide.itemsLength : ℚ)) :=
  ⟨rfl, by norm_num [getItemWidth, cfgWide], by norm_num [cfgWide], by norm_num [virtOn],
   by norm_num [getItemWidth, cfgWide], by norm_num,
   calculateVisibleRange_bounds cfgWide virtOn (-100) rfl
     (by norm_num [getItemWidth, cfgWide]) (by norm_num [cfgWide]) (by norm_num [virtOn])
     (by norm_num [getItemWidth, cfgWide]) (by norm_num)⟩

/-! ### C7: the easing curve never overshoots -/

/-- Claim C7: for positive stiffness, damping and mass and progress in
`[0, 1]`, every per-frame offset lies in the closed interval between
the start and the target offsets (no overshoot). -/
theorem frameOffset_no_overshoot (s t k d m p : ℝ) (hk : 0 < k) (hd : 0 < d) (hm : 0 < m)
    (hp0 : 0 ≤ p) (hp1 : p ≤ 1) :
    min s t ≤ frameOffset s t k d m p ∧ frameOffset s t k d m p ≤ max s t := by
  have h0 := sdp_nonneg k d m p hk hd hm hp0
  have h1 := sdp_le_one k d m p hk hd hm hp0
  unfold frameOffset
  rcases le_total s t with h | h
  · rw [min_eq_left h, max_eq_right h]
    constructor <;> nlinarith
  · rw [min_eq_right h, max_eq_left h]
    constructor <;> nlinarith

/-- Witness for C7: the default spring halfway through an animation
from offset 0 to offset 10. -/
theorem frameOffset_no_overshoot_witness :
    ((0:ℝ) < 150) ∧ ((0:ℝ) < 25) ∧ ((0:ℝ) < 1) ∧ ((0:ℝ) ≤ 1/2) ∧ ((1/2:ℝ) ≤ 1) ∧
    (min (0:ℝ) 10 ≤ frameOffset 0 10 150 25 1 (1/2) ∧
     frameOffset 0 10 150 25 1 (1/2) ≤ max (0:ℝ) 10) :=
  ⟨by norm_num, by norm_num, by norm_num, by norm_num, by norm_num,
   frameOffset_no_overshoot 0 10 150 25 1 (1/2) (by norm_num) (by norm_num) (by norm_num)
     (by norm_num) (by norm_num)⟩

/-! ### C8: the worked next() example -/

/-- Claim C8: with 10 items, 4 visible, gap 8 and item width 100
(container width 424) and peek disabled, three `next()` calls from
index 0 produce the index sequence 1, 2, 3 with animation targets
-108, -216, -324. -/
theorem next_three_from_zero :
    getItemWidth cfgMain = 100 ∧
    handleNext cfgMain 0 = (1, -108) ∧
    handleNext cfgMain 1 = (2, -216) ∧
    handleNext cfgMain 2 = (3, -324) := by
  refine ⟨?_, ?_, ?_, ?_⟩ <;>
    norm_num [handleNext, indexTargetOffset, getItemWidth, cfgMain]

/-! ### C9: next() has no lower clamp when items.length < visibleItems -/

/-- Claim C9: when `items.length < visibleItems`, `next()` from any
nonnegative index sets the current index to the negative value
`items.length - visibleItems`; `handleNext` has no lower clamp at 0. -/
theorem handleNext_negative_index (cfg : SliderCfg) (i : ℚ)
    (hlen : (cfg.itemsLength : ℚ) < cfg.visibleItems) (hi : 0 ≤ i) :
    (handleNext cfg i).1 = (cfg.itemsLength : ℚ) - cfg.visibleItems ∧
    (handleNext cfg i).1 < 0 := by
  have hmin : min ((cfg.itemsLength : ℚ) - cfg.visibleItems) (i + 1) =
      (cfg.itemsLength : ℚ) - cfg.visibleItems := min_eq_left (by linarith)
  refine ⟨?_, ?_⟩
  · show min ((cfg.itemsLength : ℚ) - cfg.visibleItems) (i + 1) = _
    exact hmin
  · show min ((cfg.itemsLength : ℚ) - cfg.visibleItems) (i + 1) < 0
    rw [hmin]
    linarith

/-- Witness for C9: two items with four visible; `next()` from index 0
yields index -2. -/
theorem handleNext_negative_index_witness :
    ((cfgFew.itemsLength : ℚ) < cfgFew.visibleItems) ∧ ((0:ℚ) ≤ 0) ∧
    ((handleNext cfgFew 0).1 = (cfgFew.itemsLength : ℚ) - cfgFew.visibleItems ∧
     (handleNext cfgFew 0).1 < 0) :=
  ⟨by norm_num [cfgFew], le_refl 0,
   handleNext_negative_index cfgFew 0 (by norm_num [cfgFew]) (le_refl 0)⟩

/-! ### More fixtures for the machine-level claims -/

/-- Machine state resting at the last reachable index of `cfgMain`
(index 6, offset -648), nothing scheduled. -/
def mState6 : SliderMState := ⟨6, -648, [], 0, 1, []⟩

/-- A percentage string whose numeric prefix does not parse. -/
def badPercent : String := "abc%"

/-- A malformed peek amount that does not end in a percent sign. -/
def notPercent : String := "zz"

/-! ### C2: cancellation of in-flight animations -/

/-- Claim C2 as stated (covering the immediate flag) is false: the
immediate branch of `animateToOffset` does not cancel the in-flight
animation.  Starting a non-immediate animation to 100 and then an
immediate one to -7 leaves the old frame scheduled, and firing that
stale frame overwrites the offset away from -7. -/
theorem animateToOffset_immediate_stale_cex :
    (animateToOffset (animateToOffset mState0 100 false) (-7) true).sliderOffset = -7 ∧
    (animateToOffset (animateToOffset mState0 100 false) (-7) true).scheduled ≠ [] ∧
    (fireFrame springMain
        (animateToOffset (animateToOffset mState0 100 false) (-7) true) 300).sliderOffset ≠ -7 := by
  have ht2 : animateToOffset (animateToOffset mState0 100 false) (-7) true =
      ⟨0, -7, [⟨1, 0, 100⟩], 1, 2, []⟩ := by
    simp [animateToOffset, requestFrame, cancelFrame, mState0]
  refine ⟨by rw [ht2], by rw [ht2]; simp, ?_⟩
  rw [ht2]
  norm_num [fireFrame, springMain, frameOffset]
  have h0 := sdp_nonneg 150 25 1 1 (by norm_num) (by norm_num) (by norm_num) (by norm_num)
  intro h
  linarith

/-- C2 (amended): every non-immediate `animateToOffset` cancels the
in-flight animation before scheduling its own frame — afterwards
exactly the new frame is scheduled (so at most one animation is ever
active) and the next frame to fire interpolates the new animation
(start = offset at call time, the new target), never a stale one.  The
immediate branch snaps the offset but cancels nothing. -/
theorem animateToOffset_cancels (spring : SpringCfg) (s : SliderMState) (t : ℝ) (elapsed : ℚ)
    (hinv : SchedInv s) :
    SchedInv (animateToOffset s t false) ∧
    (animateToOffset s t false).scheduled = [⟨s.nextFrameId, s.sliderOffset, t⟩] ∧
    (fireFrame spring (animateToOffset s t false) elapsed).sliderOffset =
      frameOffset s.sliderOffset t spring.stiffness spring.damping spring.mass
        ((min (elapsed / 300) 1 : ℚ) : ℝ) := by
  have hs := animate_sched s t hinv
  refine ⟨⟨by rw [hs]; simp, ?_⟩, hs, ?_⟩
  · intro j hj
    rw [hs] at hj
    simp only [List.mem_singleton] at hj
    subst hj
    rfl
  · simp only [fireFrame]
    rw [hs]
    split
    · next x heq => exact absurd heq (by simp)
    · next x job rest heq =>
      injection heq with hj hr
      subst hj
      subst hr
      split <;> simp [requestFrame]

/-- Witness for C2 (amended): a fresh state, target 5, a frame fired
halfway through the animation. -/
theorem animateToOffset_cancels_witness :
    SchedInv mState0 ∧
    (SchedInv (animateToOffset mState0 5 false) ∧
     (animateToOffset mState0 5 false).scheduled = [⟨1, 0, 5⟩] ∧
     (fireFrame springMain (animateToOffset mState0 5 false) 150).sliderOffset =
       frameOffset 0 5 springMain.stiffness springMain.damping springMain.mass
         ((min ((150 : ℚ) / 300) 1 : ℚ) : ℝ)) := by
  have hinv : SchedInv mState0 := ⟨by simp [mState0], by simp [mState0]⟩
  exact ⟨hinv, animateToOffset_cancels springMain mState0 5 150 hinv⟩

/-! ### C3: scrollToIndex followed by a settled animation -/

/-- Claim C3 as stated is false on the exact-offset part: after
`scrollToIndex(1)` from offset 0 on `cfgMain` (target -108) and a
completed animation frame (progress 1), the index is 1 but the final
offset is `-108 * (1 - e^(-150)) * (1 - e^(-25))`, which is not -108 —
the easing factor at progress 1 is strictly below one. -/
theorem scrollToIndex_exact_offset_cex :
    (fireFrame springMain (scrollToIndexM cfgMain mState0 1) 300).currentIndex = 1 ∧
    (fireFrame springMain (scrollToIndexM cfgMain mState0 1) 300).sliderOffset ≠
      ((-108 : ℚ) : ℝ) := by
  have htgt : indexTargetOffset cfgMain 1 = -108 := by
    norm_num [indexTargetOffset, getItemWidth, cfgMain]
  have hs : scrollToIndexM cfgMain mState0 1 =
      ⟨1, 0, [⟨1, 0, ((-108 : ℚ) : ℝ)⟩], 1, 2, [1]⟩ := by
    simp [scrollToIndexM, animateToOffset, requestFrame, cancelFrame, mState0, htgt]
  rw [hs]
  norm_num [fireFrame, springMain, frameOffset]
  have h1 := Real.exp_pos (-150 : ℝ)
  have h2 := Real.exp_pos (-25 : ℝ)
  have h3 : Real.exp (-150 : ℝ) < 1 := exp_lt_one_of_neg (by norm_num)
  have h4 : Real.exp (-25 : ℝ) < 1 := exp_lt_one_of_neg (by norm_num)
  simp only [springDampedProgress]
  norm_num
  intro h
  nlinarith

/-- C3 (amended): `scrollToIndex(i)` followed by a completing frame
(any elapsed time of at least the 300-unit duration) yields
`getCurrentIndex() = i`, and a final offset of
`start + (target - start) * (1 - e^(-stiffness/mass)) * (1 - e^(-damping))`
with `target = -(i*(itemWidth+gap)) + peekAdjustment`; the final offset
equals the target exactly if and only if the start offset already
equalled it. -/
theorem scrollToIndex_settle (cfg : SliderCfg) (spring : SpringCfg) (s : SliderMState)
    (i elapsed : ℚ) (hinv : SchedInv s) (he : 300 ≤ elapsed)
    (hk : 0 < spring.stiffness) (hd : 0 < spring.damping) (hm : 0 < spring.mass) :
    (fireFrame spring (scrollToIndexM cfg s i) elapsed).currentIndex = i ∧
    (fireFrame spring (scrollToIndexM cfg s i) elapsed).sliderOffset =
      frameOffset s.sliderOffset ((indexTargetOffset cfg i : ℚ) : ℝ)
        spring.stiffness spring.damping spring.mass 1 ∧
    ((fireFrame spring (scrollToIndexM cfg s i) elapsed).sliderOffset =
        ((indexTargetOffset cfg i : ℚ) : ℝ) ↔
      s.sliderOffset = ((indexTargetOffset cfg i : ℚ) : ℝ)) := by
  have hprog : min (elapsed / 300) (1 : ℚ) = 1 :=
    min_eq_right ((le_div_iff₀ (by norm_num)).mpr (by linarith))
  have hsched : (scrollToIndexM cfg s i).scheduled =
      [⟨s.nextFrameId, s.sliderOffset, ((indexTargetOffset cfg i : ℚ) : ℝ)⟩] :=
    animate_sched _ _ ⟨hinv.1, hinv.2⟩
  have hred : fireFrame spring (scrollToIndexM cfg s i) elapsed =
      { scrollToIndexM cfg s i with
        scheduled := []
        sliderOffset := frameOffset s.sliderOffset ((indexTargetOffset cfg i : ℚ) : ℝ)
          spring.stiffness spring.damping spring.mass ((1 : ℚ) : ℝ) } := by
    simp only [fireFrame]
    rw [hsched]
    simp only [hprog]
    split
    · next h => exact absurd h (by norm_num)
    · rfl
  rw [hred]
  have hdp : springDampedProgress spring.stiffness spring.damping spring.mass 1 < 1 := by
    have h1 := Real.exp_pos (-spring.stiffness * 1 / spring.mass)
    have h2 := Real.exp_pos (-spring.damping * 1)
    have h3 : Real.exp (-spring.stiffness * 1 / spring.mass) < 1 :=
      exp_lt_one_of_neg (div_neg_of_neg_of_pos (by nlinarith) hm)
    have h4 : Real.exp (-spring.damping * 1) < 1 :=
      exp_lt_one_of_neg (by nlinarith)
    unfold springDampedProgress
    nlinarith
  refine ⟨rfl, by norm_num, ?_⟩
  constructor
  · intro h
    simp only [frameOffset, Rat.cast_one] at h
    have hfact : (((indexTargetOffset cfg i : ℚ) : ℝ) - s.sliderOffset) *
        (1 - springDampedProgress spring.stiffness spring.damping spring.mass 1) = 0 := by
      linear_combination -h
    rcases mul_eq_zero.mp hfact with hcase | hcase
    · linarith
    · linarith
  · intro h
    simp only [frameOffset, Rat.cast_one, h]
    ring

/-- Witness for C3 (amended): `scrollToIndex(2)` from rest on
`cfgMain` with the default spring, settled at elapsed 300. -/
theorem scrollToIndex_settle_witness :
    SchedInv mState0 ∧ ((300 : ℚ) ≤ 300) ∧
    (0 < springMain.stiffness) ∧ (0 < springMain.damping) ∧ (0 < springMain.mass) ∧
    ((fireFrame springMain (scrollToIndexM cfgMain mState0 2) 300).currentIndex = 2 ∧
     (fireFrame springMain (scrollToIndexM cfgMain mState0 2) 300).sliderOffset =
       frameOffset 0 ((indexTargetOffset cfgMain 2 : ℚ) : ℝ)
         springMain.stiffness springMain.damping springMain.mass 1 ∧
     ((fireFrame springMain (scrollToIndexM cfgMain mState0 2) 300).sliderOffset =
         ((indexTargetOffset cfgMain 2 : ℚ) : ℝ) ↔
       (0 : ℝ) = ((indexTargetOffset cfgMain 2 : ℚ) : ℝ))) := by
  have hinv : SchedInv mState0 := ⟨by simp [mState0], by simp [mState0]⟩
  exact ⟨hinv, le_refl 300, by norm_num [springMain], by norm_num [springMain],
    by norm_num [springMain],
    scrollToIndex_settle cfgMain springMain mState0 2 300 hinv (le_refl 300)
      (by norm_num [springMain]) (by norm_num [springMain]) (by norm_num [springMain])⟩

/-! ### C4: the drag-end threshold -/

/-- Claim C4 as stated ("magnitude at least itemWidth*dragThreshold
advances one index") is false at the boundary: on `cfgMain` the
threshold is `100 * 0.2 = 20`, and a rightward drag of exactly 20 from
index 1 snaps back to `(1, -108)` (the source compares with strict >),
instead of advancing to the previous index `(0, 0)`. -/
theorem handleDragEnd_at_threshold_cex :
    handleDragEnd cfgMain true true 1 0 20 = some (1, -108) ∧
    handleDragEnd cfgMain true true 1 0 20 ≠ some (0, 0) := by
  have h : handleDragEnd cfgMain true true 1 0 20 = some (1, -108) := by
    norm_num [handleDragEnd, cfgMain, getItemWidth, indexTargetOffset, abs]
  exact ⟨h, by rw [h]; simp⟩

/-- C4 (amended): for an active drag ended within index bounds, if the
drag magnitude STRICTLY exceeds `itemWidth * dragThreshold` the slider
advances exactly one index against the drag direction (previous for a
rightward drag, next for a leftward one), clamped to
`[0, items.length - visibleItems]`, and animates to that index's
offset; if the magnitude is at most the threshold it returns to the
pre-drag index's offset. -/
theorem handleDragEnd_spec (cfg : SliderCfg) (i st cur : ℚ)
    (h0 : 0 ≤ i) (hmax : i ≤ (cfg.itemsLength : ℚ) - cfg.visibleItems) :
    ∃ r : ℚ × ℚ, handleDragEnd cfg true true i st cur = some r ∧
      0 ≤ r.1 ∧ r.1 ≤ (cfg.itemsLength : ℚ) - cfg.visibleItems ∧
      r.2 = indexTargetOffset cfg r.1 ∧
      (|cur - st| ≤ getItemWidth cfg * cfg.dragThreshold → r.1 = i) ∧
      (getItemWidth cfg * cfg.dragThreshold < |cur - st| →
        (0 < cur - st → r.1 = max 0 (i - 1)) ∧
        (cur - st ≤ 0 → r.1 = min ((cfg.itemsLength : ℚ) - cfg.visibleItems) (i + 1))) := by
  by_cases hth : getItemWidth cfg * cfg.dragThreshold < |cur - st|
  · by_cases hdir : 0 < cur - st
    · refine ⟨handlePrevious cfg i, ?_, ?_, ?_, rfl, ?_, ?_⟩
      · simp [handleDragEnd, hth, hdir]
      · exact le_max_left _ _
      · exact max_le (by linarith) (by linarith)
      · intro habs
        exact absurd habs (not_le.mpr hth)
      · intro _
        exact ⟨fun _ => rfl, fun hc => absurd hdir (not_lt.mpr hc)⟩
    · refine ⟨handleNext cfg i, ?_, ?_, ?_, rfl, ?_, ?_⟩
      · simp [handleDragEnd, hth, hdir]
      · exact le_min (by linarith) (by linarith)
      · exact min_le_left _ _
      · intro habs
        exact absurd habs (not_le.mpr hth)
      · intro _
        exact ⟨fun hc => absurd hc hdir, fun _ => rfl⟩
  · refine ⟨(i, indexTargetOffset cfg i), ?_, h0, hmax, rfl, fun _ => rfl, ?_⟩
    · simp [handleDragEnd, hth]
    · intro hc
      exact absurd hc hth

/-- Witness for C4 (amended): a rightward drag of 50 from index 1 on
`cfgMain`. -/
theorem handleDragEnd_threshold_witness :
    ((0:ℚ) ≤ 1) ∧ ((1:ℚ) ≤ (cfgMain.itemsLength : ℚ) - cfgMain.visibleItems) ∧
    (∃ r : ℚ × ℚ, handleDragEnd cfgMain true true 1 0 50 = some r ∧
      0 ≤ r.1 ∧ r.1 ≤ (cfgMain.itemsLength : ℚ) - cfgMain.visibleItems ∧
      r.2 = indexTargetOffset cfgMain r.1 ∧
      (|(50:ℚ) - 0| ≤ getItemWidth cfgMain * cfgMain.dragThreshold → r.1 = 1) ∧
      (getItemWidth cfgMain * cfgMain.dragThreshold < |(50:ℚ) - 0| →
        (0 < (50:ℚ) - 0 → r.1 = max 0 (1 - 1)) ∧
        ((50:ℚ) - 0 ≤ 0 →
          r.1 = min ((cfgMain.itemsLength : ℚ) - cfgMain.visibleItems) (1 + 1)))) :=
  ⟨by norm_num, by norm_num [cfgMain],
   handleDragEnd_spec cfgMain 1 0 50 (by norm_num) (by norm_num [cfgMain])⟩

/-! ### C5: next() at the last reachable index -/

/-- Claim C5 as stated is false on the "no new animation target" part:
`next()` at the last reachable index (6 on `cfgMain`) leaves the index
unchanged but still calls `animateToOffset`, scheduling a new
animation frame. -/
theorem handleNext_at_last_cex :
    (handleNextM cfgMain mState6).currentIndex = 6 ∧
    (handleNextM cfgMain mState6).scheduled ≠ [] := by
  constructor
  · show (handleNext cfgMain mState6.currentIndex).1 = 6
    norm_num [handleNext, cfgMain, mState6]
  · simp [handleNextM, animateToOffset, requestFrame, cancelFrame, mState6]

/-- C5 (amended): `next()` at the last reachable index leaves
`currentIndex` unchanged, but still starts a new animation — whose
target is the unchanged index's own offset — and still fires
`onSlideChange` with the unchanged index. -/
theorem handleNext_at_last (cfg : SliderCfg) (s : SliderMState) (hinv : SchedInv s)
    (hlast : s.currentIndex = (cfg.itemsLength : ℚ) - cfg.visibleItems) :
    (handleNextM cfg s).currentIndex = s.currentIndex ∧
    (handleNextM cfg s).scheduled =
      [⟨s.nextFrameId, s.sliderOffset, ((indexTargetOffset cfg s.currentIndex : ℚ) : ℝ)⟩] ∧
    (handleNextM cfg s).slideChangeEvents = s.slideChangeEvents ++ [s.currentIndex] := by
  have hidx : (handleNext cfg s.currentIndex).1 = s.currentIndex := by
    simp only [handleNext]
    rw [hlast]
    exact min_eq_left (by linarith)
  have hsched : (handleNextM cfg s).scheduled =
      [⟨s.nextFrameId, s.sliderOffset, ((handleNext cfg s.currentIndex).2 : ℝ)⟩] :=
    animate_sched { s with currentIndex := (handleNext cfg s.currentIndex).1 } _
      ⟨hinv.1, hinv.2⟩
  refine ⟨hidx, ?_, ?_⟩
  · rw [hsched]
    have h2 : (handleNext cfg s.currentIndex).2 =
        indexTargetOffset cfg (handleNext cfg s.currentIndex).1 := rfl
    rw [h2, hidx]
  · show s.slideChangeEvents ++ [(handleNext cfg s.currentIndex).1] = _
    rw [hidx]

/-- Witness for C5 (amended): `next()` on `cfgMain` from the resting
state at the last index 6. -/
theorem handleNext_at_last_witness :
    SchedInv mState6 ∧
    (mState6.currentIndex = (cfgMain.itemsLength : ℚ) - cfgMain.visibleItems) ∧
    ((handleNextM cfgMain mState6).currentIndex = mState6.currentIndex ∧
     (handleNextM cfgMain mState6).scheduled =
       [⟨mState6.nextFrameId, mState6.sliderOffset,
          ((indexTargetOffset cfgMain mState6.currentIndex : ℚ) : ℝ)⟩] ∧
     (handleNextM cfgMain mState6).slideChangeEvents =
       mState6.slideChangeEvents ++ [mState6.currentIndex]) := by
  have hinv : SchedInv mState6 := ⟨by simp [mState6], by simp [mState6]⟩
  have hlast : mState6.currentIndex = (cfgMain.itemsLength : ℚ) - cfgMain.visibleItems := by
    norm_num [mState6, cfgMain]
  exact ⟨hinv, hlast, handleNext_at_last cfgMain mState6 hinv hlast⟩

/-! ### C6: malformed peek percentage strings -/

/-- Claim C6 as stated is false: a malformed peek amount that DOES end
in a percent sign, such as "abc%", makes `calculatePeekWidth` return
NaN (`parseFloat("abc%")` is NaN, modelled `none`), not zero peek. -/
theorem calculatePeekWidth_nan_cex :
    calculatePeekWidth true (.str badPercent) 4 8 424 = none ∧
    calculatePeekWidth true (.str badPercent) 4 8 424 ≠ some 0 := by
  refine ⟨rfl, ?_⟩
  intro h
  rw [show calculatePeekWidth true (.str badPercent) 4 8 424 = none from rfl] at h
  exact Option.noConfusion h

/-- C6 (amended): with peek enabled and a string peek amount, a string
that does not end in a percent sign degrades to zero peek for every
container width; a string that ends in a percent sign but whose prefix
does not parse as a number yields NaN (`none`), not zero. -/
theorem calculatePeekWidth_malformed (pa : String) (v g width : ℚ) :
    (jsEndsWith pa percentSuffix = false →
      calculatePeekWidth true (.str pa) v g width = some 0) ∧
    (jsEndsWith pa percentSuffix = true → parseFloatJs pa = none →
      calculatePeekWidth true (.str pa) v g width = none) := by
  constructor
  · intro h
    simp [calculatePeekWidth, h]
  · intro h1 h2
    simp [calculatePeekWidth, h1, h2]

/-- Witness for C6 (amended): "zz" degrades to zero peek; "abc%"
yields NaN. -/
theorem calculatePeekWidth_malformed_witness :
    (jsEndsWith notPercent percentSuffix = false ∧
     calculatePeekWidth true (.str notPercent) 4 8 424 = some 0) ∧
    (jsEndsWith badPercent percentSuffix = true ∧ parseFloatJs badPercent = none ∧
     calculatePeekWidth true (.str badPercent) 4 8 424 = none) :=
  ⟨⟨rfl, (calculatePeekWidth_malformed notPercent 4 8 424).1 rfl⟩,
   ⟨rfl, rfl, (calculatePeekWidth_malformed badPercent 4 8 424).2 rfl rfl⟩⟩

/-! ### C10: navigation always notifies and always animates -/

/-- Claim C10: every `next()` or `previous()` call — including boundary
calls where the clamped index equals the current one — fires
`onSlideChange` with the resulting index and schedules exactly one new
animation frame targeting that index's offset. -/
theorem nav_always_notifies (cfg : SliderCfg) (s : SliderMState) (hinv : SchedInv s) :
    ((handleNextM cfg s).slideChangeEvents =
       s.slideChangeEvents ++ [(handleNext cfg s.currentIndex).1] ∧
     (handleNextM cfg s).scheduled =
       [⟨s.nextFrameId, s.sliderOffset,
          ((indexTargetOffset cfg (handleNext cfg s.currentIndex).1 : ℚ) : ℝ)⟩]) ∧
    ((handlePreviousM cfg s).slideChangeEvents =
       s.slideChangeEvents ++ [(handlePrevious cfg s.currentIndex).1] ∧
     (handlePreviousM cfg s).scheduled =
       [⟨s.nextFrameId, s.sliderOffset,
          ((indexTargetOffset cfg (handlePrevious cfg s.currentIndex).1 : ℚ) : ℝ)⟩]) := by
  refine ⟨⟨rfl, ?_⟩, ⟨rfl, ?_⟩⟩
  · exact animate_sched { s with currentIndex := (handleNext cfg s.currentIndex).1 } _
      ⟨hinv.1, hinv.2⟩
  · exact animate_sched { s with currentIndex := (handlePrevious cfg s.currentIndex).1 } _
      ⟨hinv.1, hinv.2⟩

/-- Witness for C10: `cfgMain` from the initial state, where
`previous()` is at its boundary (index stays 0) yet still notifies and
animates. -/
theorem nav_always_notifies_witness :
    SchedInv mState0 ∧
    (((handleNextM cfgMain mState0).slideChangeEvents =
        mState0.slideChangeEvents ++ [(handleNext cfgMain mState0.currentIndex).1] ∧
      (handleNextM cfgMain mState0).scheduled =
        [⟨mState0.nextFrameId, mState0.sliderOffset,
           ((indexTargetOffset cfgMain (handleNext cfgMain mState0.currentIndex).1 : ℚ) : ℝ)⟩]) ∧
     ((handlePreviousM cfgMain mState0).slideChangeEvents =
        mState0.slideChangeEvents ++ [(handlePrevious cfgMain mState0.currentIndex).1] ∧
      (handlePreviousM cfgMain mState0).scheduled =
        [⟨mState0.nextFrameId, mState0.sliderOffset,
           ((indexTargetOffset cfgMain (handlePrevious cfgMain mState0.currentIndex).1 : ℚ) : ℝ)⟩])) := by
  have hinv : SchedInv mState0 := ⟨by simp [mState0], by simp [mState0]⟩
  exact ⟨hinv, nav_always_notifies cfgMain mState0 hinv⟩
